import Mathlib

/-!
Verification of the RAG question pipeline of the bulgarian-dzi-generator
repository: a shallow embedding of the embedding cache
(src/embedding_cache.py), the RAG retriever/generator/validator
(src/question_generator_rag.py), the vector analyzer
(src/vector_analyzer.py), the simple RAG generator
(src/simple_rag_generator.py) and the deduplication gate
(app_real_matura.py), together with theorems settling the spec claims.

Modelling conventions: Python dicts of question records become structures
whose optional keys are `Option` fields; the external sentence-transformer
backend is an abstract `encode : String → Vec` parameter; similarity rows
produced by the external cosine-similarity call are abstract `List ℚ`
inputs (cosine values are rationals here, exact arithmetic in place of
floating point); `np.argsort` is modelled as a stable ascending sort of
the index range (numpy falls back to a stable insertion sort on the small
arrays involved); Python `random.choice` is modelled by an arbitrary
choice function `pick : Nat → Nat` reduced modulo the list length.
-/

/-- An embedding vector (opaque output of the external backend). -/
abbrev Vec := List ℚ

/-! Python string primitives, modelled structurally over the character
list of a string (Lean's built-in byte-position based `String.trim`,
`String.toLower` and `String.split` are avoided so that every definition
evaluates inside the kernel).  `Char.toLower` lowercases ASCII letters,
which is faithful to Python `str.lower` on the ASCII fragment; all
concrete inputs used in theorems below stay in that fragment. -/

/-- Python `str.strip()`: drop whitespace from both ends. -/
def pyStrip (s : String) : String :=
  ⟨((s.data.dropWhile Char.isWhitespace).reverse.dropWhile
      Char.isWhitespace).reverse⟩

/-- Python `str.lower()` (ASCII fragment). -/
def pyLower (s : String) : String :=
  ⟨s.data.map Char.toLower⟩

/-- Helper of `pySplit`: words of a character list, accumulating the
current (reversed) word. -/
def pyWordsAux : List Char → List Char → List (List Char)
  | [], acc => if acc.isEmpty then [] else [acc.reverse]
  | c :: cs, acc =>
    if c.isWhitespace then
      (if acc.isEmpty then [] else [acc.reverse]) ++ pyWordsAux cs []
    else pyWordsAux cs (c :: acc)

/-- Python `str.split()` with no argument: split on whitespace runs,
dropping empty pieces. -/
def pySplit (s : String) : List String :=
  (pyWordsAux s.data []).map (fun w => ⟨w⟩)

/-- Code-point lexicographic string comparison, the order Python `sorted`
uses on strings. -/
def lexLe : List Char → List Char → Bool
  | [], _ => true
  | _ :: _, [] => false
  | a :: as, b :: bs =>
    if a.toNat < b.toNat then true
    else if b.toNat < a.toNat then false
    else lexLe as bs

/-- Python `sorted` on a list of strings (stable, ascending
code-point-lexicographic). -/
def pySorted (l : List String) : List String :=
  List.insertionSort (fun a b => lexLe a.data b.data = true) l

/-- A corpus question record, i.e. one of the JSON dicts the pipeline
loads.  `question` models `q.get("question", "")` (total, default empty);
the remaining fields model optional keys: `type` is `q.get("type")`,
`options` is present iff `"options" in q`, and `correct_answer` is
present iff `"correct_answer" in q`. -/
structure Question where
  question : String := ""
  type : Option String := none
  options : Option (List String) := none
  correct_answer : Option String := none
deriving DecidableEq

/-- The per-question text block of the combined "all texts" list: the
question text, then the options when `q.get("type") == "multiple_choice"
and "options" in q`, then the correct answer when `"correct_answer" in q`.
This is the loop body shared verbatim by
`EmbeddingCache.compute_and_cache_embeddings` (embedding_cache.py 43-52)
and `MaturaVectorAnalyzer.create_embeddings` (vector_analyzer.py 58-78). -/
def questionAllTexts (q : Question) : List String :=
  [q.question]
    ++ (match q.type, q.options with
        | some t, some opts => if t = "multiple_choice" then opts else []
        | _, _ => [])
    ++ (match q.correct_answer with
        | some a => [a]
        | none => [])

/-- The combined "all texts" list over a corpus, in corpus order. -/
def allTexts (qs : List Question) : List String :=
  (qs.map questionAllTexts).flatten

/-- `np.argsort(similarities)` over the similarity row: the indices
`0, ..., n-1` sorted ascending by similarity value (stable). -/
def argsortAsc (sims : List ℚ) : List Nat :=
  List.insertionSort (fun i j => sims.getD i 0 ≤ sims.getD j 0)
    (List.range sims.length)

/-- `np.argsort(similarities)[::-1][:top_k]` followed by the loop pairing
each kept index with its similarity — the retrieval core shared by
`RAGQuestionGenerator.find_similar_questions` (question_generator_rag.py
125-131) and `EmbeddingCache.get_similar_questions` (embedding_cache.py
122-128). -/
def topKSimilar (sims : List ℚ) (top_k : Nat) : List (Nat × ℚ) :=
  (((argsortAsc sims).reverse).take top_k).map
    (fun idx => (idx, sims.getD idx 0))

namespace EmbeddingCache

/-- The pickled cache artifact written by
`EmbeddingCache.compute_and_cache_embeddings` (embedding_cache.py 62-70).
`model_name` holds `get_sentence_embedding_dimension()` as in the source. -/
structure CacheData where
  questions : List Question
  question_texts : List String
  all_texts : List String
  question_embeddings : List Vec
  all_embeddings : List Vec
  model_name : Nat
  total_questions : Nat
deriving DecidableEq

/-- `EmbeddingCache.compute_and_cache_embeddings` (embedding_cache.py
23-78): build the per-question text list and the combined text list,
encode both with the external backend (`encode`), and assemble the cache
record keyed by the loaded question count.  The JSON-file loading prefix
is abstracted into the `all_questions` argument. -/
def compute_and_cache_embeddings (encode : String → Vec) (dim : Nat)
    (all_questions : List Question) : CacheData :=
  let question_texts := all_questions.map (fun q => q.question)
  let all_texts := allTexts all_questions
  { questions := all_questions
    question_texts := question_texts
    all_texts := all_texts
    question_embeddings := question_texts.map encode
    all_embeddings := all_texts.map encode
    model_name := dim
    total_questions := all_questions.length }

/-- `EmbeddingCache.load_cached_embeddings` (embedding_cache.py 80-95):
`store = none` models a missing or unreadable (pickle error) cache file,
returned as a miss; otherwise the cached record is returned unchanged.
The function takes no current-corpus argument because the source performs
no consistency check of any kind against the current corpus. -/
def load_cached_embeddings (store : Option CacheData) : Option CacheData :=
  match store with
  | none => none
  | some cache_data => some cache_data

/-- `EmbeddingCache.get_similar_questions` (embedding_cache.py 97-128):
with `use_cache`, load the cache; on a miss return the empty list;
otherwise rank by the cosine-similarity row `simRow` (external call over
the cached question embeddings) and return the top-k pairs.  With
`use_cache = false` the source also returns the empty list. -/
def get_similar_questions (store : Option CacheData) (simRow : List ℚ)
    (top_k : Nat) (use_cache : Bool) : List (Nat × ℚ) :=
  if use_cache then
    match load_cached_embeddings store with
    | none => []
    | some _ => topKSimilar simRow top_k
  else []

end EmbeddingCache

namespace RAGQuestionGenerator

/-- `RAGQuestionGenerator.find_similar_questions`
(question_generator_rag.py 113-131): raises `ValueError` when
`self.question_embeddings is None` (modelled as `simRow = none`);
otherwise ranks the cosine-similarity row and returns the top-k pairs. -/
def find_similar_questions (simRow : Option (List ℚ)) (top_k : Nat) :
    Except String (List (Nat × ℚ)) :=
  match simRow with
  | none => Except.error "Embeddings not created. Call create_embeddings() first."
  | some sims => Except.ok (topKSimilar sims top_k)

/-- The `GeneratedQuestion` dataclass (question_generator_rag.py 19-30). -/
structure GeneratedQuestion where
  question : String
  options : List String
  correct_answer : String
  explanation : String := ""
  difficulty : String := "medium"
  topic : String := "general"
  source_questions : List Nat := []
  similarity_scores : List ℚ := []
  generation_method : String := ""
deriving DecidableEq

/-- Result dict of `validate_question_quality`. -/
structure ValidationResult where
  is_valid : Bool
  issues : List String
  score : ℚ
deriving DecidableEq

/-- The canonical correct-answer letters checked by the validator. -/
def answerLetters : List String := ["A", "B", "C", "D"]

/-- `RAGQuestionGenerator.validate_question_quality`
(question_generator_rag.py 326-368).  The source latches
`validation["is_valid"] = False` at each failed rule, which is equivalent
to the final issue list being empty; `len(set(options)) == len(options)`
is the `Nodup` predicate; the score credits are the exact values
`0.3, 0.3, 0.2, 0.2` as rationals. -/
def validate_question_quality (q : GeneratedQuestion) : ValidationResult :=
  let wordCount := (pySplit q.question).length
  let issues :=
    (if wordCount < 5 then ["Question too short"] else [])
    ++ (if q.options.length ≠ 4 then ["Incorrect number of options"] else [])
    ++ (if q.correct_answer ∉ answerLetters then ["Invalid correct answer format"] else [])
    ++ (if ¬ q.options.Nodup then ["Duplicate options found"] else [])
  let score : ℚ :=
    (if 5 ≤ wordCount then (3 : ℚ)/10 else 0)
    + (if q.options.length = 4 then (3 : ℚ)/10 else 0)
    + (if q.correct_answer ∈ answerLetters then (2 : ℚ)/10 else 0)
    + (if q.options.Nodup then (2 : ℚ)/10 else 0)
  { is_valid := issues.isEmpty, issues := issues, score := score }

/-- The correct-answer letter class `[A-D]` of the
`ВЕРЕН_ОТГОВОР` regular expression: the pattern can only ever capture one
of these four letters. -/
inductive Letter where
  | A
  | B
  | C
  | D
deriving DecidableEq

/-- The captured letter as the string stored in the record. -/
def Letter.str : Letter → String
  | Letter.A => "A"
  | Letter.B => "B"
  | Letter.C => "C"
  | Letter.D => "D"

/-- `RAGQuestionGenerator._parse_generated_question`
(question_generator_rag.py 241-299).  The `re.search` results on the raw
completion are the `Option` inputs (the regex engine itself is external):
`question_match` for `ВЪПРОС:`, one match per lettered option A-D,
`correct_match` for `ВЕРЕН_ОТГОВОР:` (its character class guarantees a
`Letter`), and the optional explanation and topic matches with their
source defaults.  The option loop appends only the matches that
succeeded, and the variant is discarded unless exactly 4 were collected. -/
def parse_generated_question (question_match : Option String)
    (omA omB omC omD : Option String) (correct_match : Option Letter)
    (explanation_match topic_match : Option String)
    (context_similarities : List ℚ) (generation_method : String) :
    Option GeneratedQuestion :=
  match question_match with
  | none => none
  | some qraw =>
    let options := [omA, omB, omC, omD].filterMap (fun m => m.map pyStrip)
    if options.length = 4 then
      match correct_match with
      | none => none
      | some c =>
        some { question := pyStrip qraw
               options := options
               correct_answer := c.str
               explanation := (explanation_match.map pyStrip).getD ""
               difficulty := "medium"
               topic := (topic_match.map pyStrip).getD "general"
               source_questions := List.range context_similarities.length
               similarity_scores := context_similarities
               generation_method := generation_method }
    else none

end RAGQuestionGenerator

namespace MaturaVectorAnalyzer

/-- `MaturaVectorAnalyzer.find_similar_questions` (vector_analyzer.py
163-182): raises `ValueError` when `self.embeddings is None`; otherwise
ranks the cosine-similarity row `embRow` — one entry per element of the
combined `allTexts` list built by `create_embeddings` (vector_analyzer.py
58-78), NOT per question — takes the top-k positions, and keeps a pair
`(idx, sim)` only when `idx < len(self.questions)`. -/
def find_similar_questions (questions : List Question)
    (embRow : Option (List ℚ)) (top_k : Nat) :
    Except String (List (Nat × ℚ)) :=
  match embRow with
  | none => Except.error "Embeddings not created. Call create_embeddings() first."
  | some sims =>
    Except.ok ((((argsortAsc sims).reverse).take top_k).filterMap
      (fun idx =>
        if idx < questions.length then some (idx, sims.getD idx 0) else none))

end MaturaVectorAnalyzer

/-- `is_duplicate_question` normalization of one option or question text:
`.strip().lower()` (app_real_matura.py 304-311). -/
def normText (s : String) : String :=
  pyLower (pyStrip s)

/-- `sorted([opt.strip().lower() for opt in q.get("options", [])])`
(app_real_matura.py 305, 310). -/
def normOptions (opts : List String) : List String :=
  pySorted (opts.map normText)

/-- `is_duplicate_question` (app_real_matura.py 303-316): a candidate is a
duplicate iff some existing record matches on both the normalized
question text and the normalized, sorted option list. -/
def is_duplicate_question (question : Question)
    (existing_questions : List Question) : Bool :=
  let question_text := normText question.question
  let question_options := normOptions (question.options.getD [])
  existing_questions.any (fun existing =>
    question_text == normText existing.question
      && question_options == normOptions (existing.options.getD []))

namespace SimpleRAGGenerator

/-- The `SubjectArea` enum (simple_rag_generator.py 31-33). -/
inductive SubjectArea where
  | LANGUAGE
  | LITERATURE
deriving DecidableEq

/-- A generated-question dict: the template keys plus the
`subject`/`difficulty`/`points` keys added by the generation loop. -/
structure GenDict where
  question : String := ""
  options : List String := []
  correct_answer : String := ""
  subject : String := ""
  difficulty : String := ""
  points : Nat := 0
deriving DecidableEq, Inhabited

/-- Constructor state: the configured key and the loaded corpus. -/
structure SimpleState where
  api_key : String
  real_questions : List Question
deriving DecidableEq

/-- `SimpleRAGGenerator.__init__` (simple_rag_generator.py 38-44): reads
`OPENAI_API_KEY` from the environment (`none` = unset, and the empty
string is falsy in Python) and raises `ValueError` when it is not
configured; otherwise records the key and the loaded corpus. -/
def init (api_key_env : Option String) (real_questions : List Question) :
    Except String SimpleState :=
  match api_key_env with
  | none => Except.error "OPENAI_API_KEY not found in environment variables"
  | some k =>
    if k = "" then
      Except.error "OPENAI_API_KEY not found in environment variables"
    else
      Except.ok { api_key := k, real_questions := real_questions }

/-- The two hand-authored language templates
(simple_rag_generator.py 271-282). -/
def languageTemplates : List GenDict :=
  [ { question := "Кой от следните думи е синоним на \x27изключителен\x27?"
      options := ["обикновен", "редовен", "извънреден", "стандартен"]
      correct_answer := "извънреден" },
    { question := "Кой от следните думи е антоним на \x27добър\x27?"
      options := ["хубав", "лош", "добър", "отличен"]
      correct_answer := "лош" } ]

/-- The two hand-authored literature templates
(simple_rag_generator.py 284-295). -/
def literatureTemplates : List GenDict :=
  [ { question := "Кой е авторът на романа \x27Под игото\x27?"
      options := ["Иван Вазов", "Христо Ботев", "Пейо Яворов", "Димчо Дебелянов"]
      correct_answer := "Иван Вазов" },
    { question := "В кой период е създадена поемата \x27Хайдушки\x27?"
      options := ["Възраждането", "Средновековието", "Античността", "Модернизма"]
      correct_answer := "Възраждането" } ]

/-- The subject label added to each generated dict. -/
def subjectLabel : SubjectArea → String
  | SubjectArea.LANGUAGE => "Български език"
  | SubjectArea.LITERATURE => "Българска литература"

/-- `SimpleRAGGenerator._generate_basic_questions`
(simple_rag_generator.py 266-306): per requested question, copy a
`random.choice` of the subject's templates (`pick i` modulo the template
count models the random draw) and add the subject label, a
`random.choice(["easy", "medium", "hard"])` difficulty (`dpick i` modulo
3) and `points = 1`.  Makes no network call. -/
def generate_basic_questions (pick dpick : Nat → Nat) (count : Nat)
    (subject : SubjectArea) : List GenDict :=
  let templates := match subject with
    | SubjectArea.LANGUAGE => languageTemplates
    | SubjectArea.LITERATURE => literatureTemplates
  (List.range count).map (fun i =>
    let template := templates.getD (pick i % templates.length) default
    { template with
        subject := subjectLabel subject
        difficulty := ["easy", "medium", "hard"].getD (dpick i % 3) ""
        points := 1 })

/-- `SimpleRAGGenerator.generate_questions` (simple_rag_generator.py
237-264): raises `ValueError` when the key is falsy; falls back to
`generate_basic_questions` when no similar questions were found for
context, or when the OpenAI call (`openai_result`, the external
`_generate_with_openai` outcome, `[]` on any API failure) produced no
questions; otherwise returns the model output. -/
def generate_questions (st : SimpleState) (pick dpick : Nat → Nat)
    (similar_questions : List Question) (openai_result : List GenDict)
    (count : Nat) (subject : SubjectArea) : Except String (List GenDict) :=
  if st.api_key = "" then
    Except.error "OpenAI API key not configured"
  else if similar_questions.isEmpty then
    Except.ok (generate_basic_questions pick dpick count subject)
  else if openai_result.isEmpty then
    Except.ok (generate_basic_questions pick dpick count subject)
  else
    Except.ok openai_result

end SimpleRAGGenerator

/-! Concrete records used by individual theorems below. -/

/-- A one-record corpus for the cache staleness scenario. -/
def cacheExampleQuestion : Question := { question := "sample question" }

/-- The cache artifact built over the one-record corpus (arbitrary
backend `fun _ => [1]`, embedding dimension 384 as the MiniLM model). -/
def staleCache : EmbeddingCache.CacheData :=
  EmbeddingCache.compute_and_cache_embeddings (fun _ => [1]) 384
    [cacheExampleQuestion]

/-- Existing corpus record for the deduplication scenarios. -/
def dedupExisting : Question :=
  { question := "Which word fits", options := some ["alpha", "beta", "gamma", "delta"] }

/-- The same record modulo case and whitespace. -/
def dedupCaseVariant : Question :=
  { question := "  WHICH word FITS  ", options := some ["Alpha ", " BETA", "gamma", "delta"] }

/-- The same record with the options reordered. -/
def dedupReordered : Question :=
  { question := "Which word fits", options := some ["delta", "gamma", "beta", "alpha"] }

/-- The same record with one option differing in a single character. -/
def dedupOneChar : Question :=
  { question := "Which word fits", options := some ["alpha", "beta", "gamma", "delts"] }

/-- A candidate with 3 options (and otherwise passing fields). -/
def threeOptionCandidate : RAGQuestionGenerator.GeneratedQuestion :=
  { question := "one two three four five six", options := ["x", "y", "z"],
    correct_answer := "A" }

/-- A candidate whose options are pairwise distinct as exact strings but
where two of them coincide after trimming and lowercasing. -/
def caseDupCandidate : RAGQuestionGenerator.GeneratedQuestion :=
  { question := "one two three four five six", options := ["a", "A", "b", "c"],
    correct_answer := "A" }

/-- A candidate with an exact duplicate option pair. -/
def exactDupCandidate : RAGQuestionGenerator.GeneratedQuestion :=
  { question := "one two three four five six", options := ["a", "a", "b", "c"],
    correct_answer := "A" }

/-- First multiple-choice question of the vector-analyzer corpus. -/
def vaQuestionZero : Question :=
  { question := "q zero", type := some "multiple_choice",
    options := some ["o01", "o02", "o03", "o04"], correct_answer := some "a0" }

/-- Second multiple-choice question of the vector-analyzer corpus. -/
def vaQuestionOne : Question :=
  { question := "q one", type := some "multiple_choice",
    options := some ["o11", "o12", "o13", "o14"], correct_answer := some "a1" }

/-- A two-question corpus whose combined text list has 12 entries. -/
def vaCorpus : List Question := [vaQuestionZero, vaQuestionOne]

/-- A cosine-similarity row over the 12 combined texts of `vaCorpus`:
position 1 (the first option of question 0) is the best match, position 6
the worst, all others tie at 0. -/
def vaSims : List ℚ := [0, 1, 0, 0, 0, 0, -1, 0, 0, 0, 0, 0]

/-! Helper lemmas about the retrieval core. -/

theorem length_argsortAsc (sims : List ℚ) :
    (argsortAsc sims).length = sims.length := by
  simp [argsortAsc]

theorem mem_argsortAsc {sims : List ℚ} {i : Nat} :
    i ∈ argsortAsc sims ↔ i < sims.length := by
  simp [argsortAsc]

theorem sorted_argsortAsc (sims : List ℚ) :
    List.Sorted (fun i j => sims.getD i 0 ≤ sims.getD j 0) (argsortAsc sims) := by
  haveI : IsTotal Nat (fun i j => sims.getD i 0 ≤ sims.getD j 0) :=
    ⟨fun a b => le_total _ _⟩
  haveI : IsTrans Nat (fun i j => sims.getD i 0 ≤ sims.getD j 0) :=
    ⟨fun a b c hab hbc => le_trans hab hbc⟩
  exact List.sorted_insertionSort _ _

theorem length_topKSimilar (sims : List ℚ) (top_k : Nat) :
    (topKSimilar sims top_k).length = min top_k sims.length := by
  simp [topKSimilar, length_argsortAsc]

theorem mem_topKSimilar {sims : List ℚ} {top_k : Nat} {p : Nat × ℚ}
    (hp : p ∈ topKSimilar sims top_k) :
    p.1 < sims.length ∧ p.2 = sims.getD p.1 0 := by
  simp only [topKSimilar, List.mem_map] at hp
  obtain ⟨idx, hidx, rfl⟩ := hp
  have hmem : idx ∈ argsortAsc sims :=
    List.mem_reverse.mp (List.mem_of_mem_take hidx)
  exact ⟨mem_argsortAsc.mp hmem, rfl⟩

theorem sorted_topKSimilar (sims : List ℚ) (top_k : Nat) :
    List.Sorted (fun a b : Nat × ℚ => b.2 ≤ a.2) (topKSimilar sims top_k) := by
  have hrev : List.Pairwise (fun i j => sims.getD j 0 ≤ sims.getD i 0)
      (argsortAsc sims).reverse :=
    List.pairwise_reverse.mpr (sorted_argsortAsc sims)
  have htake := hrev.sublist (List.take_sublist top_k _)
  exact List.pairwise_map.mpr htake

/-- C3 (amended): for every similarity row and every `top_k`, retrieval
returns `min top_k N` pairs `(index, similarity)` with each index in
range and each similarity the row value at that index; when the external
cosine values lie in `[-1, 1]` so do all returned similarities; the
result is sorted by descending similarity.  The tie-breaking differs from
the claim: `np.argsort(...)[::-1]` reverses the ascending stable order,
so equal similarities are returned with the LATER corpus index first, as
the final conjunct shows on a two-element tie. -/
theorem find_similar_questions_spec (sims : List ℚ) (top_k : Nat) :
    RAGQuestionGenerator.find_similar_questions (some sims) top_k
      = Except.ok (topKSimilar sims top_k)
    ∧ (topKSimilar sims top_k).length = min top_k sims.length
    ∧ (∀ p ∈ topKSimilar sims top_k, p.1 < sims.length ∧ p.2 = sims.getD p.1 0)
    ∧ ((∀ s ∈ sims, -1 ≤ s ∧ s ≤ 1) →
        ∀ p ∈ topKSimilar sims top_k, -1 ≤ p.2 ∧ p.2 ≤ 1)
    ∧ List.Sorted (fun a b : Nat × ℚ => b.2 ≤ a.2) (topKSimilar sims top_k)
    ∧ topKSimilar [(1 : ℚ), 1] 2 = [(1, 1), (0, 1)] := by
  refine ⟨rfl, length_topKSimilar sims top_k, fun p hp => mem_topKSimilar hp,
    ?_, sorted_topKSimilar sims top_k, by decide⟩
  intro hbound p hp
  obtain ⟨hlt, heq⟩ := mem_topKSimilar hp
  have hval : sims.getD p.1 0 = sims[p.1] := List.getD_eq_getElem sims 0 hlt
  have hmem : sims[p.1] ∈ sims := List.getElem_mem hlt
  rw [heq, hval]
  exact hbound _ hmem

/-- C3 counterexample to the stable tie-break: over a corpus of two
entries with equal similarity, the result lists the later index first,
not the original corpus order the claim requires. -/
theorem topKSimilar_tie_reversed :
    topKSimilar [(1 : ℚ), 1] 2 = [(1, 1), (0, 1)]
    ∧ ¬ topKSimilar [(1 : ℚ), 1] 2 = [(0, 1), (1, 1)] := by
  decide

/-- C3 witness: over a corpus of size 1 with `top_k = 3`, retrieval
returns exactly one in-bounds pair. -/
theorem find_similar_questions_spec_witness :
    (topKSimilar [(1 : ℚ)] 3).length = min 3 1
    ∧ (∀ p ∈ topKSimilar [(1 : ℚ)] 3, -1 ≤ p.2 ∧ p.2 ≤ 1)
    ∧ topKSimilar [(1 : ℚ)] 3 = [(0, 1)] :=
  ⟨(find_similar_questions_spec [(1 : ℚ)] 3).2.1,
   (find_similar_questions_spec [(1 : ℚ)] 3).2.2.2.1 (by decide),
   by decide⟩

/-- C4 (amended): `RAGQuestionGenerator.find_similar_questions` does
raise (`ValueError`, the concrete error the spec names
`IndexNotBuiltError`) when no embeddings have been created; but
`EmbeddingCache.get_similar_questions` returns the empty list, not an
error, on a cache miss (with or without `use_cache`) — its return type
has no error channel at all. -/
theorem retrieval_without_index (top_k : Nat) (simRow : List ℚ) :
    RAGQuestionGenerator.find_similar_questions none top_k
      = Except.error "Embeddings not created. Call create_embeddings() first."
    ∧ EmbeddingCache.get_similar_questions none simRow top_k true = []
    ∧ EmbeddingCache.get_similar_questions none simRow top_k false = [] := by
  exact ⟨rfl, rfl, rfl⟩

/-- C4 counterexample: a retrieval with no cached index in the
`EmbeddingCache` path silently returns the empty list, instead of
failing with `IndexNotBuiltError` as the claim requires for every
no-index retrieval. -/
theorem get_similar_questions_cache_miss_silent :
    EmbeddingCache.get_similar_questions none [(1 : ℚ)] 3 true = [] := by
  exact rfl

/-- C9: `MaturaVectorAnalyzer.find_similar_questions` ranks against the
combined `allTexts` list (12 entries for this 2-question corpus), then
keeps only positions below the question count: on `vaCorpus` with
`top_k = 2` (not exceeding the 2 loaded questions) it returns a single
pair, fewer than `top_k`; and the returned position 1 is interpreted as
question index 1 even though combined-list entry 1 is an option of
question 0, not the text of question 1. -/
theorem vector_analyzer_misaligned_positions :
    vaCorpus.length = 2
    ∧ (allTexts vaCorpus).length = 12
    ∧ MaturaVectorAnalyzer.find_similar_questions vaCorpus (some vaSims) 2
      = Except.ok [(1, 1)]
    ∧ [((1 : Nat), (1 : ℚ))].length < 2
    ∧ (allTexts vaCorpus).getD 1 "" = "o01"
    ∧ "o01" ∈ (vaQuestionZero.options.getD [])
    ∧ ¬ (allTexts vaCorpus).getD 1 "" = vaQuestionOne.question := by
  refine ⟨rfl, rfl, rfl, by decide, rfl, by decide, by decide⟩

/-- C1 (amended): after a build over a corpus of N records the cache
holds exactly N per-question vectors and records N as its question count,
and `load_cached_embeddings` returns that cached structure (a missing
cache is a miss).  Contrary to the claim, the load performs NO
consistency check against the current corpus — it returns the cached
record unconditionally, so a corpus change without a rebuild yields stale
data, never a size-mismatch miss. -/
theorem build_then_load_cache (encode : String → Vec) (dim : Nat)
    (corpus : List Question) :
    (EmbeddingCache.compute_and_cache_embeddings encode dim corpus).question_embeddings.length
      = corpus.length
    ∧ (EmbeddingCache.compute_and_cache_embeddings encode dim corpus).total_questions
      = corpus.length
    ∧ EmbeddingCache.load_cached_embeddings
        (some (EmbeddingCache.compute_and_cache_embeddings encode dim corpus))
      = some (EmbeddingCache.compute_and_cache_embeddings encode dim corpus)
    ∧ EmbeddingCache.load_cached_embeddings none = none := by
  refine ⟨?_, rfl, rfl, rfl⟩
  simp [EmbeddingCache.compute_and_cache_embeddings]

/-- C1 counterexample: `staleCache` was built over a 1-record corpus;
after the corpus changes to any other record count (say 2), the claim
requires `load()` to return nothing, but the code returns the stale
1-record cache — `load_cached_embeddings` does not even receive the
current corpus, so no mismatch can ever be detected. -/
theorem load_returns_stale_cache :
    EmbeddingCache.load_cached_embeddings (some staleCache) = some staleCache
    ∧ staleCache.total_questions = 1
    ∧ ¬ ((1 : Nat) = 2) :=
  ⟨rfl, rfl, by decide⟩

/-- C5: a candidate is flagged duplicate iff some existing record agrees
on both the trimmed-lowercased question text and the trimmed-lowercased
sorted option list; consequently a case/whitespace variant is rejected, a
reordering of the same options is rejected, and a one-character option
change is not rejected. -/
theorem is_duplicate_question_spec (q : Question) (existing : List Question) :
    (is_duplicate_question q existing = true
      ↔ ∃ e ∈ existing,
          normText q.question = normText e.question
          ∧ normOptions (q.options.getD []) = normOptions (e.options.getD []))
    ∧ is_duplicate_question dedupCaseVariant [dedupExisting] = true
    ∧ is_duplicate_question dedupReordered [dedupExisting] = true
    ∧ is_duplicate_question dedupOneChar [dedupExisting] = false := by
  refine ⟨?_, by decide, by decide, by decide⟩
  simp [is_duplicate_question, List.any_eq_true, Bool.and_eq_true, beq_iff_eq]

theorem validate_is_valid_iff (q : RAGQuestionGenerator.GeneratedQuestion) :
    (RAGQuestionGenerator.validate_question_quality q).is_valid = true ↔
      (5 ≤ (pySplit q.question).length ∧ q.options.length = 4
       ∧ q.correct_answer ∈ RAGQuestionGenerator.answerLetters
       ∧ q.options.Nodup) := by
  by_cases h1 : (pySplit q.question).length < 5 <;>
    by_cases h2 : q.options.length = 4 <;>
      by_cases h3 : q.correct_answer ∈ RAGQuestionGenerator.answerLetters <;>
        by_cases h4 : q.options.Nodup <;>
          simp [RAGQuestionGenerator.validate_question_quality, h1, h2, h3, h4] <;>
            omega

/-- C6: the validator's score is the sum of four independent partial
credits (0.3 question length, 0.3 option count, 0.2 answer reference,
0.2 distinct options), reported regardless of validity; a candidate is
valid exactly when the score is the full 1.0; and a candidate with 3
options scores at most 0.7 and is invalid. -/
theorem validate_question_quality_score (q : RAGQuestionGenerator.GeneratedQuestion) :
    ((RAGQuestionGenerator.validate_question_quality q).score =
      (if 5 ≤ (pySplit q.question).length then (3 : ℚ)/10 else 0)
      + (if q.options.length = 4 then (3 : ℚ)/10 else 0)
      + (if q.correct_answer ∈ RAGQuestionGenerator.answerLetters then (2 : ℚ)/10 else 0)
      + (if q.options.Nodup then (2 : ℚ)/10 else 0))
    ∧ ((RAGQuestionGenerator.validate_question_quality q).is_valid = true
        ↔ (RAGQuestionGenerator.validate_question_quality q).score = 1)
    ∧ (q.options.length = 3 →
        (RAGQuestionGenerator.validate_question_quality q).score ≤ 7/10
        ∧ (RAGQuestionGenerator.validate_question_quality q).is_valid = false) := by
  have hsc : (RAGQuestionGenerator.validate_question_quality q).score =
      (if 5 ≤ (pySplit q.question).length then (3 : ℚ)/10 else 0)
      + (if q.options.length = 4 then (3 : ℚ)/10 else 0)
      + (if q.correct_answer ∈ RAGQuestionGenerator.answerLetters then (2 : ℚ)/10 else 0)
      + (if q.options.Nodup then (2 : ℚ)/10 else 0) := rfl
  refine ⟨hsc, ?_, ?_⟩
  · rw [validate_is_valid_iff, hsc]
    by_cases h1 : 5 ≤ (pySplit q.question).length <;>
      by_cases h2 : q.options.length = 4 <;>
        by_cases h3 : q.correct_answer ∈ RAGQuestionGenerator.answerLetters <;>
          by_cases h4 : q.options.Nodup <;>
            simp [h1, h2, h3, h4] <;> norm_num
  · intro hlen
    have h2 : ¬ q.options.length = 4 := by omega
    constructor
    · rw [hsc]
      by_cases h1 : 5 ≤ (pySplit q.question).length <;>
        by_cases h3 : q.correct_answer ∈ RAGQuestionGenerator.answerLetters <;>
          by_cases h4 : q.options.Nodup <;>
            simp [h1, h2, h3, h4] <;> norm_num
    · exact Bool.eq_false_iff.mpr fun h => h2 ((validate_is_valid_iff q).mp h).2.1

/-- C6 witness: a concrete 3-option candidate scores at most 0.7 and is
reported invalid. -/
theorem validate_question_quality_score_witness :
    (RAGQuestionGenerator.validate_question_quality threeOptionCandidate).score ≤ 7/10
    ∧ (RAGQuestionGenerator.validate_question_quality threeOptionCandidate).is_valid
      = false :=
  (validate_question_quality_score threeOptionCandidate).2.2 rfl

/-- C7 (amended): the duplicate-options rule compares options by EXACT
string equality (`len(set(options)) == len(options)`), not
case/whitespace-insensitively as the claim states: the issue is appended
(and the candidate invalidated) precisely when two options are equal as
exact strings. -/
theorem duplicate_options_rule_exact (q : RAGQuestionGenerator.GeneratedQuestion) :
    ("Duplicate options found" ∈ (RAGQuestionGenerator.validate_question_quality q).issues
      ↔ ¬ q.options.Nodup)
    ∧ (¬ q.options.Nodup →
        (RAGQuestionGenerator.validate_question_quality q).is_valid = false) := by
  constructor
  · by_cases h1 : (pySplit q.question).length < 5 <;>
      by_cases h2 : q.options.length = 4 <;>
        by_cases h3 : q.correct_answer ∈ RAGQuestionGenerator.answerLetters <;>
          by_cases h4 : q.options.Nodup <;>
            simp [RAGQuestionGenerator.validate_question_quality, h1, h2, h3, h4]
  · intro h4
    exact Bool.eq_false_iff.mpr fun h => h4 ((validate_is_valid_iff q).mp h).2.2.2

/-- C7 counterexample: two options that become equal after trimming and
lowercasing but are distinct exact strings do NOT trigger the duplicate
issue, and the candidate stays valid — refuting the claimed
case/whitespace-insensitive comparison. -/
theorem duplicate_options_not_case_insensitive :
    pyLower (pyStrip "a") = pyLower (pyStrip "A")
    ∧ ¬ "Duplicate options found"
        ∈ (RAGQuestionGenerator.validate_question_quality caseDupCandidate).issues
    ∧ (RAGQuestionGenerator.validate_question_quality caseDupCandidate).is_valid
      = true := by
  decide

/-- C7 witness: an exact duplicate option pair does trigger the issue and
invalidates the candidate. -/
theorem duplicate_options_rule_exact_witness :
    "Duplicate options found"
      ∈ (RAGQuestionGenerator.validate_question_quality exactDupCandidate).issues
    ∧ (RAGQuestionGenerator.validate_question_quality exactDupCandidate).is_valid
      = false :=
  ⟨(duplicate_options_rule_exact exactDupCandidate).1.mpr (by decide),
   (duplicate_options_rule_exact exactDupCandidate).2 (by decide)⟩

theorem letter_str_mem (c : RAGQuestionGenerator.Letter) :
    c.str ∈ RAGQuestionGenerator.answerLetters := by
  cases c <;> decide

/-- C8: the response parser yields a candidate record iff the question
text, all four lettered options and a valid correct-answer letter were
all extracted — a record is produced only with exactly 4 options and a
correct answer from the letter class, and any missing required match
makes the whole parse return nothing (partial records are never built). -/
theorem parse_requires_all_fields (qm omA omB omC omD : Option String)
    (cm : Option RAGQuestionGenerator.Letter) (em tm : Option String)
    (sims : List ℚ) (gm : String) :
    (RAGQuestionGenerator.parse_generated_question qm omA omB omC omD cm em tm sims gm
        = none
      ↔ (qm = none ∨ cm = none ∨ omA = none ∨ omB = none ∨ omC = none ∨ omD = none))
    ∧ (∀ r, RAGQuestionGenerator.parse_generated_question qm omA omB omC omD cm em tm sims gm
        = some r →
        r.options.length = 4
        ∧ r.correct_answer ∈ RAGQuestionGenerator.answerLetters
        ∧ r.question = pyStrip (qm.getD "")) := by
  rcases qm with _ | qraw <;> rcases cm with _ | c <;>
    rcases omA with _ | a <;> rcases omB with _ | b <;>
      rcases omC with _ | o <;> rcases omD with _ | d <;>
        simp [RAGQuestionGenerator.parse_generated_question, letter_str_mem]

/-- C8 witness: a completion missing every required field parses to
nothing. -/
theorem parse_requires_all_fields_witness :
    RAGQuestionGenerator.parse_generated_question none none none none none none
      none none [] "variant_1" = none :=
  (parse_requires_all_fields none none none none none none none none [] "variant_1").1.mpr
    (Or.inl rfl)

theorem difficulty_choice_mem (d : Nat) :
    (["easy", "medium", "hard"].getD (d % 3) "") ∈ (["easy", "medium", "hard"] : List String) := by
  rcases (by omega : d % 3 = 0 ∨ d % 3 = 1 ∨ d % 3 = 2) with h | h | h <;>
    rw [h] <;> decide

theorem template_fields_ok :
    ∀ t ∈ SimpleRAGGenerator.languageTemplates ++ SimpleRAGGenerator.literatureTemplates,
      t.options.length = 4 ∧ t.options.Nodup ∧ t.correct_answer ∈ t.options := by
  decide

theorem generate_basic_spec (pick dpick : Nat → Nat) (count : Nat)
    (subject : SimpleRAGGenerator.SubjectArea) :
    (SimpleRAGGenerator.generate_basic_questions pick dpick count subject).length = count
    ∧ ∀ q ∈ SimpleRAGGenerator.generate_basic_questions pick dpick count subject,
        q.options.length = 4 ∧ q.options.Nodup ∧ q.correct_answer ∈ q.options
        ∧ q.points = 1 ∧ q.difficulty ∈ (["easy", "medium", "hard"] : List String) := by
  constructor
  · simp [SimpleRAGGenerator.generate_basic_questions]
  · intro q hq
    simp only [SimpleRAGGenerator.generate_basic_questions, List.mem_map,
      List.mem_range] at hq
    obtain ⟨i, hi, rfl⟩ := hq
    cases subject
    case LANGUAGE =>
      have hmem : SimpleRAGGenerator.languageTemplates.getD
          (pick i % SimpleRAGGenerator.languageTemplates.length) default
          ∈ SimpleRAGGenerator.languageTemplates ++ SimpleRAGGenerator.literatureTemplates := by
        rw [show SimpleRAGGenerator.languageTemplates.length = 2 from rfl]
        rcases (by omega : pick i % 2 = 0 ∨ pick i % 2 = 1) with h | h <;>
          rw [h] <;> decide
      obtain ⟨h4, hnd, hca⟩ := template_fields_ok _ hmem
      exact ⟨h4, hnd, hca, rfl, difficulty_choice_mem (dpick i)⟩
    case LITERATURE =>
      have hmem : SimpleRAGGenerator.literatureTemplates.getD
          (pick i % SimpleRAGGenerator.literatureTemplates.length) default
          ∈ SimpleRAGGenerator.languageTemplates ++ SimpleRAGGenerator.literatureTemplates := by
        rw [show SimpleRAGGenerator.literatureTemplates.length = 2 from rfl]
        rcases (by omega : pick i % 2 = 0 ∨ pick i % 2 = 1) with h | h <;>
          rw [h] <;> decide
      obtain ⟨h4, hnd, hca⟩ := template_fields_ok _ hmem
      exact ⟨h4, hnd, hca, rfl, difficulty_choice_mem (dpick i)⟩

/-- C2 (amended): with no configured backend the engine RAISES
(`__init__` raises `ValueError` before any generation can run — see the
counterexample); the template fallback is instead taken, with a
configured key, when no similar questions are found for context or when
the backend call yields no questions, and it then returns at least one
(exactly `count`) structurally valid candidate — 4 pairwise-distinct
options and a correct answer that is one of them — with no network
call. -/
theorem template_fallback_valid (st : SimpleRAGGenerator.SimpleState)
    (pick dpick : Nat → Nat) (similar : List Question)
    (openai_result : List SimpleRAGGenerator.GenDict) (count : Nat)
    (subject : SimpleRAGGenerator.SubjectArea)
    (hkey : ¬ st.api_key = "") (hcount : 1 ≤ count) :
    SimpleRAGGenerator.generate_questions st pick dpick [] openai_result count subject
      = Except.ok (SimpleRAGGenerator.generate_basic_questions pick dpick count subject)
    ∧ SimpleRAGGenerator.generate_questions st pick dpick similar [] count subject
      = Except.ok (SimpleRAGGenerator.generate_basic_questions pick dpick count subject)
    ∧ 1 ≤ (SimpleRAGGenerator.generate_basic_questions pick dpick count subject).length
    ∧ ∀ q ∈ SimpleRAGGenerator.generate_basic_questions pick dpick count subject,
        q.options.length = 4 ∧ q.options.Nodup ∧ q.correct_answer ∈ q.options := by
  have hspec := generate_basic_spec pick dpick count subject
  refine ⟨?_, ?_, ?_, ?_⟩
  · simp [SimpleRAGGenerator.generate_questions, hkey]
  · by_cases hs : similar.isEmpty <;>
      simp [SimpleRAGGenerator.generate_questions, hkey, hs]
  · rw [hspec.1]; exact hcount
  · intro q hq
    obtain ⟨h4, hnd, hca, -, -⟩ := hspec.2 q hq
    exact ⟨h4, hnd, hca⟩

/-- C2 counterexample: invoked with no configured model backend (unset
`OPENAI_API_KEY`), the engine raises `ValueError` at construction instead
of using the template fallback — no candidate is returned. -/
theorem init_without_key_raises :
    SimpleRAGGenerator.init none []
      = Except.error "OPENAI_API_KEY not found in environment variables"
    ∧ SimpleRAGGenerator.init (some "") []
      = Except.error "OPENAI_API_KEY not found in environment variables" :=
  ⟨rfl, rfl⟩

/-- C2 witness: with a configured key and no retrieved context, one
requested question comes from the template fallback. -/
theorem template_fallback_valid_witness :
    SimpleRAGGenerator.generate_questions
        { api_key := "sk-test", real_questions := [] }
        (fun _ => 0) (fun _ => 0) [] [] 1 SimpleRAGGenerator.SubjectArea.LANGUAGE
      = Except.ok (SimpleRAGGenerator.generate_basic_questions
          (fun _ => 0) (fun _ => 0) 1 SimpleRAGGenerator.SubjectArea.LANGUAGE)
    ∧ 1 ≤ (SimpleRAGGenerator.generate_basic_questions
        (fun _ => 0) (fun _ => 0) 1 SimpleRAGGenerator.SubjectArea.LANGUAGE).length :=
  ⟨(template_fallback_valid { api_key := "sk-test", real_questions := [] }
      (fun _ => 0) (fun _ => 0) [] [] 1 SimpleRAGGenerator.SubjectArea.LANGUAGE
      (by decide) (by decide)).1,
   (template_fallback_valid { api_key := "sk-test", real_questions := [] }
      (fun _ => 0) (fun _ => 0) [] [] 1 SimpleRAGGenerator.SubjectArea.LANGUAGE
      (by decide) (by decide)).2.2.1⟩

/-- C10: for every count and subject the template fallback returns
exactly `count` records, each with exactly 4 options, a correct answer
that is one of its options, `points = 1` and a difficulty drawn from
easy/medium/hard. -/
theorem generate_basic_questions_shape (pick dpick : Nat → Nat) (count : Nat)
    (subject : SimpleRAGGenerator.SubjectArea) :
    (SimpleRAGGenerator.generate_basic_questions pick dpick count subject).length = count
    ∧ ∀ q ∈ SimpleRAGGenerator.generate_basic_questions pick dpick count subject,
        q.options.length = 4 ∧ q.correct_answer ∈ q.options
        ∧ q.points = 1 ∧ q.difficulty ∈ (["easy", "medium", "hard"] : List String) := by
  have hspec := generate_basic_spec pick dpick count subject
  refine ⟨hspec.1, fun q hq => ?_⟩
  obtain ⟨h4, -, hca, hp, hd⟩ := hspec.2 q hq
  exact ⟨h4, hca, hp, hd⟩

/-- C5 witness: the characterization applied to the concrete
case/whitespace variant. -/
theorem is_duplicate_question_spec_witness :
    is_duplicate_question dedupCaseVariant [dedupExisting] = true :=
  (is_duplicate_question_spec dedupCaseVariant [dedupExisting]).1.mpr
    ⟨dedupExisting, by decide, by decide, by decide⟩

/-- C9 witness: the misalignment theorem instantiated on its corpus. -/
theorem vector_analyzer_misaligned_positions_witness :
    MaturaVectorAnalyzer.find_similar_questions vaCorpus (some vaSims) 2
      = Except.ok [(1, 1)] :=
  (vector_analyzer_misaligned_positions).2.2.1

/-- C10 witness: one literature question from the fallback has 4 options
and a resolvable correct answer. -/
theorem generate_basic_questions_shape_witness :
    (SimpleRAGGenerator.generate_basic_questions (fun _ => 0) (fun _ => 0) 1
      SimpleRAGGenerator.SubjectArea.LITERATURE).length = 1
    ∧ ((SimpleRAGGenerator.generate_basic_questions (fun _ => 0) (fun _ => 0) 1
        SimpleRAGGenerator.SubjectArea.LITERATURE).getD 0 default).options.length = 4 :=
  ⟨(generate_basic_questions_shape (fun _ => 0) (fun _ => 0) 1
      SimpleRAGGenerator.SubjectArea.LITERATURE).1,
   ((generate_basic_questions_shape (fun _ => 0) (fun _ => 0) 1
      SimpleRAGGenerator.SubjectArea.LITERATURE).2 _ (by decide)).1⟩
